import Mathlib

/-!
Verification of the Tessa_Traveling_Partner repository: a shallow embedding
of its agent orchestration loop (`src/llm_graph_update.py`), its travel-API
gateway (`src/amadeus_api_client.py`) and its tool layer (`src/tools.py`),
with theorems settling the specification's claims about them.

External collaborators (the two LLMs, the geocoding service, the Amadeus
provider SDK) are modelled as oracle functions supplied as parameters;
outbound calls to them are recorded in explicit call traces so that
"never invoked" properties are stated as facts about those traces.
Latitude/longitude values are opaque data in this code base (they are only
tested for presence and passed through, never computed with), so they are
embedded as integers to keep equality decidable.
-/

namespace Tessa

/-- A structured tool call emitted by the worker model
(langchain `ToolCall`: id, tool name, arguments record). -/
structure ToolCall where
  id : String
  name : String
  args : List (String × String)
deriving DecidableEq, Repr

/-- The message kinds of the conversation history: `HumanMessage`,
`AIMessage` (with its `tool_calls` list) and `ToolMessage`. -/
inductive Message where
  | user (text : String)
  | assistant (text : String) (tool_calls : List ToolCall)
  | toolResult (tool_call_id : String) (payload : String)
deriving DecidableEq, Repr

/-- The nodes of the compiled LangGraph workflow in
`create_travel_agent`; `terminal` stands for langgraph's `END`. -/
inductive Node where
  | agent
  | action
  | summarize
  | terminal
deriving DecidableEq, Repr

/-- The external collaborators of the loop, as oracles: the worker LLM
chain (`worker_prompt | worker_llm_with_tools`, returning an AIMessage's
text and tool calls), the supervisor LLM chain
(`supervisor_prompt | supervisor_llm`, returning its text) and the tool
executor used by the ToolNode for a single call. -/
structure Oracles where
  worker : List Message → String × List ToolCall
  supervisor : List Message → String
  tool_exec : ToolCall → String

/-- `src/llm_graph_update.py` `call_model`: invoke the worker chain on the
state's messages and return the one-element message list to append
(`return {"messages": [response]}`). -/
def call_model (o : Oracles) (ms : List Message) : List Message :=
  [Message.assistant (o.worker ms).1 (o.worker ms).2]

/-- `src/llm_graph_update.py` `call_summarizer`: invoke the supervisor
chain on the full history and return `[AIMessage(content=response.content)]`
— a plain assistant message with no tool calls. -/
def call_summarizer (o : Oracles) (ms : List Message) : List Message :=
  [Message.assistant (o.supervisor ms) []]

/-- Modelled from the spec: the body of langgraph's prebuilt
`ToolNode(available_tools)` (library code, not under `src/`), per the
spec's ACTING description: "for every pending ToolCall in the latest
AssistantMessage, invoke the Tool Registry and append one
ToolResultMessage per call, preserving call order." Returns the messages
to append. -/
def tool_node (exec : ToolCall → String) (ms : List Message) : List Message :=
  match ms.getLast? with
  | some (Message.assistant _ tcs) =>
      tcs.map (fun tc => Message.toolResult tc.id (exec tc))
  | _ => []

/-- `src/llm_graph_update.py` `should_continue`: look at
`state["messages"][-1]`; `"continue"` when it is an `AIMessage` with a
non-empty `tool_calls` list, `"end"` otherwise. (The messages list is
never empty at this point: the node runs right after `call_model`
appended the worker's message.) -/
def should_continue (ms : List Message) : String :=
  match ms.getLast? with
  | some (Message.assistant _ tcs) => if tcs.isEmpty then "end" else "continue"
  | _ => "end"

/-- The conditional-edge mapping attached to the `agent` node:
`{"continue": "action", "end": END}`. -/
def route_after_agent (ms : List Message) : Node :=
  if should_continue ms = "continue" then Node.action else Node.terminal

/-- One step of the compiled workflow: the `agent` node runs `call_model`
then its conditional edge routes; `action` runs the ToolNode and follows
the fixed edge `add_edge("action", "summarize")`; `summarize` runs
`call_summarizer` and follows `add_edge("summarize", END)`. -/
def step (o : Oracles) : Node × List Message → Node × List Message
  | (Node.agent, ms) =>
      let ms' := ms ++ call_model o ms
      (route_after_agent ms', ms')
  | (Node.action, ms) => (Node.summarize, ms ++ tool_node o.tool_exec ms)
  | (Node.summarize, ms) => (Node.terminal, ms ++ call_summarizer o ms)
  | (Node.terminal, ms) => (Node.terminal, ms)

/-- Iterate `step` until `terminal`, with enough fuel for the longest path
`agent → action → summarize → END` of the graph. -/
def runAux (o : Oracles) : Nat → Node × List Message → Node × List Message
  | 0, s => s
  | n + 1, s => if s.1 = Node.terminal then s else runAux o n (step o s)

/-- One orchestration run of the compiled graph (`app.invoke`): start at
the entry point `agent` and run to `END`, returning the updated message
sequence. -/
def run_turn (o : Oracles) (ms : List Message) : List Message :=
  (runAux o 4 (Node.agent, ms)).2

/-- Concrete oracles used by closed (counterexample / witness) theorems:
the worker answers with plain text and no tool calls. -/
def chatOracles : Oracles where
  worker := fun _ => ("Hello! How can I help?", [])
  supervisor := fun _ => "SUPERVISOR-SUMMARY"
  tool_exec := fun tc => "result-of-" ++ tc.name

/-- Concrete oracles whose worker emits one tool call. -/
def toolingOracles : Oracles where
  worker := fun _ => ("", [⟨"call_1", "get_current_date", []⟩])
  supervisor := fun _ => "Here is your answer."
  tool_exec := fun tc => "result-of-" ++ tc.name

/-- Python exceptions relevant at the gateway boundary: the Amadeus SDK's
`ResponseError` (with its `description`) and any other `Exception`. -/
inductive PyExn where
  | responseError (description : String)
  | other
deriving DecidableEq, Repr

/-- A value flowing back through a tool: the provider's result list
(records kept as opaque strings) or an error string. Both are ordinary
return values, never exceptions. -/
inductive ToolResult where
  | ok (data : List String)
  | err (msg : String)
deriving DecidableEq, Repr

/-- An outbound Amadeus SDK call, recorded for call-trace assertions.
`nonStop` is a string because the source passes
`'true' if nonstop else 'false'`; the geocode endpoint takes `longitude`
first, as at the call site. -/
inductive AmadeusCall where
  | flightOffersSearch (origin destination departureDate : String)
      (adults children : Int) (nonStop : String) (maxResults : Int)
  | hotelsByCity (cityCode : String)
  | hotelsByGeocode (longitude latitude : Int) (radius : Int)
deriving DecidableEq, Repr

/-- Oracle for the Amadeus SDK endpoints used by
`src/amadeus_api_client.py`: each either returns `response.data` or
raises (`Except.error`). -/
structure ProviderClient where
  flight_offers_search :
    String → String → String → Int → Int → String → Int → Except PyExn (List String)
  hotels_by_city : String → Except PyExn (List String)
  hotels_by_geocode : Int → Int → Int → Except PyExn (List String)

/-- `src/amadeus_api_client.py` `AmadeusAPI`: `client` is `None` when
initialization failed. -/
structure AmadeusAPI where
  client : Option ProviderClient

/-- The fixed message returned by every gateway operation when the client
is uninitialized. -/
def notInitializedMsg : String :=
  "Amadeus client is not initialized. Check API credentials."

/-- `AmadeusAPI.find_one_way_flights`: guard on the missing client, try
the flight-offers endpoint, catch `ResponseError` and any other exception
as error strings. Returns the result (with raising modelled by `Except`)
and the provider call trace. -/
def find_one_way_flights (api : AmadeusAPI)
    (origin destination departure_date : String)
    (number_of_adults number_of_children : Int) (nonstop : Bool)
    (max_results : Int) : Except PyExn ToolResult × List AmadeusCall :=
  match api.client with
  | none => (Except.ok (ToolResult.err notInitializedMsg), [])
  | some c =>
      let ns := if nonstop then "true" else "false"
      let trace := [AmadeusCall.flightOffersSearch origin destination
        departure_date number_of_adults number_of_children ns max_results]
      match c.flight_offers_search origin destination departure_date
          number_of_adults number_of_children ns max_results with
      | Except.ok data => (Except.ok (ToolResult.ok data), trace)
      | Except.error (PyExn.responseError d) =>
          (Except.ok (ToolResult.err
            ("An error occurred while searching for flights: " ++ d)), trace)
      | Except.error PyExn.other =>
          (Except.ok (ToolResult.err
            "An unexpected error occurred during the flight search."), trace)

/-- `AmadeusAPI.find_hotels_in_city`: same guard/try/except shape over the
hotels-by-city endpoint. -/
def find_hotels_in_city (api : AmadeusAPI) (city_code : String) :
    Except PyExn ToolResult × List AmadeusCall :=
  match api.client with
  | none => (Except.ok (ToolResult.err notInitializedMsg), [])
  | some c =>
      let trace := [AmadeusCall.hotelsByCity city_code]
      match c.hotels_by_city city_code with
      | Except.ok data => (Except.ok (ToolResult.ok data), trace)
      | Except.error (PyExn.responseError d) =>
          (Except.ok (ToolResult.err
            ("An error occurred while searching for hotels: " ++ d)), trace)
      | Except.error PyExn.other =>
          (Except.ok (ToolResult.err
            "An unexpected error occurred during the hotel search."), trace)

/-- `AmadeusAPI.find_hotels_by_area`: same guard/try/except shape over the
hotels-by-geocode endpoint (called with `longitude` first, as in the
source). -/
def find_hotels_by_area (api : AmadeusAPI) (latitude longitude : Int)
    (radius : Int) : Except PyExn ToolResult × List AmadeusCall :=
  match api.client with
  | none => (Except.ok (ToolResult.err notInitializedMsg), [])
  | some c =>
      let trace := [AmadeusCall.hotelsByGeocode longitude latitude radius]
      match c.hotels_by_geocode longitude latitude radius with
      | Except.ok data => (Except.ok (ToolResult.ok data), trace)
      | Except.error (PyExn.responseError d) =>
          (Except.ok (ToolResult.err
            ("An error occurred while searching for hotels by area: " ++ d)), trace)
      | Except.error PyExn.other =>
          (Except.ok (ToolResult.err
            "An unexpected error occurred during the hotel area search."), trace)

/-- `src/tools.py` `_get_geocoordinates`: resolve an address through the
Nominatim geocoder (an oracle here); `(latitude, longitude)` on a match,
`None` otherwise. -/
def get_geocoordinates (geocode : String → Option (Int × Int))
    (address : String) : Option (Int × Int) :=
  match geocode address with
  | some location => some location
  | none => none

/-- Python truthiness of the optional `place_name` argument: `None` and
the empty string are falsy. -/
def truthyStr : Option String → Bool
  | some s => !s.isEmpty
  | none => false

/-- The error returned by `search_hotels_by_area` when no complete
coordinate pair is available. -/
def noLocationMsg : String :=
  "Error: Cannot search for hotels without a valid location. Please provide a place_name or valid latitude/longitude."

/-- `src/tools.py` `search_hotels_by_area`: geocode `place_name` only when
it is truthy and both coordinates are absent
(`if place_name and (longitude is None and latitude is None)`); return an
error naming the place on a geocoder miss; refuse with `noLocationMsg`
when latitude or longitude is still missing; otherwise delegate to
`find_hotels_by_area`. Returns the result, the geocoder call trace
(addresses looked up) and the provider call trace. -/
def search_hotels_by_area (api : AmadeusAPI)
    (geocode : String → Option (Int × Int)) (place_name : Option String)
    (latitude longitude : Option Int) (radius : Int) :
    Except PyExn ToolResult × List String × List AmadeusCall :=
  if truthyStr place_name && (longitude.isNone && latitude.isNone) then
    let pn := place_name.getD ""
    match get_geocoordinates geocode pn with
    | some (lat, lon) =>
        let r := find_hotels_by_area api lat lon radius
        (r.1, [pn], r.2)
    | none =>
        (Except.ok (ToolResult.err
          ("Error: Could not find the coordinates for the location '" ++ pn ++
            "'. Please try a different or more specific landmark.")), [pn], [])
  else
    match latitude, longitude with
    | some lat, some lon =>
        let r := find_hotels_by_area api lat lon radius
        (r.1, [], r.2)
    | _, _ => (Except.ok (ToolResult.err noLocationMsg), [], [])

/-- `src/tools.py` `FlightSearchInput` after validation: required fields
present, optional fields carrying their values (defaults filled in when
omitted). -/
structure FlightSearchInput where
  origin : String
  destination : String
  departure_date : String
  num_adults : Int
  num_children : Int
  non_stop : Bool
  maximum_results : Int
deriving DecidableEq, Repr

/-- Raw arguments of a `search_flights` tool call before validation:
`none` marks an omitted field. -/
structure FlightSearchArgs where
  origin : Option String
  destination : Option String
  departure_date : Option String
  num_adults : Option Int
  num_children : Option Int
  non_stop : Option Bool
  maximum_results : Option Int
deriving DecidableEq, Repr

/-- Outcome of schema validation: the parsed input, or a pydantic-style
`ValidationError` naming the offending (missing required) field. -/
inductive Validated (α : Type) where
  | ok (value : α)
  | validationError (field : String)
deriving DecidableEq, Repr

/-- Modelled from the spec: pydantic validation of `FlightSearchInput`
(library behaviour, not under `src/`) — "required fields present, types
coercible, defaults applied for omitted optional fields. On schema
violation, returns a `ValidationError` describing the offending field".
Required fields are checked in schema declaration order; the defaults
1, 0, true, 10 are the ones declared in `src/tools.py`. -/
def validateFlightSearchInput (args : FlightSearchArgs) :
    Validated FlightSearchInput :=
  match args.origin with
  | none => Validated.validationError "origin"
  | some o =>
      match args.destination with
      | none => Validated.validationError "destination"
      | some d =>
          match args.departure_date with
          | none => Validated.validationError "departure_date"
          | some dd =>
              Validated.ok ⟨o, d, dd, args.num_adults.getD 1,
                args.num_children.getD 0, args.non_stop.getD true,
                args.maximum_results.getD 10⟩

/-- `src/tools.py` `search_flights` implementation body: delegate to
`find_one_way_flights` with the validated arguments. -/
def search_flights (api : AmadeusAPI) (inp : FlightSearchInput) :
    Except PyExn ToolResult × List AmadeusCall :=
  find_one_way_flights api inp.origin inp.destination inp.departure_date
    inp.num_adults inp.num_children inp.non_stop inp.maximum_results

/-- Modelled from the spec: the Tool Registry's `invoke` path for
`search_flights` (langchain's `@tool(args_schema=FlightSearchInput)`
machinery, library code not under `src/`): "On schema violation, returns
a `ValidationError` describing the offending field — never calls the
underlying implementation"; on success it runs the implementation on the
validated input. -/
def invoke_search_flights (api : AmadeusAPI) (args : FlightSearchArgs) :
    Validated (Except PyExn ToolResult) × List AmadeusCall :=
  match validateFlightSearchInput args with
  | Validated.validationError f => (Validated.validationError f, [])
  | Validated.ok inp =>
      let r := search_flights api inp
      (Validated.ok r.1, r.2)

/-- A stub provider used by closed witness theorems: flight and city
searches succeed, the geocode search raises a `ResponseError`. -/
def stubClient : ProviderClient where
  flight_offers_search := fun _ _ _ _ _ _ _ => Except.ok ["offer1", "offer2"]
  hotels_by_city := fun _ => Except.ok ["hotelA"]
  hotels_by_geocode := fun _ _ _ => Except.error (PyExn.responseError "boom")

/-- A gateway whose client initialized against `stubClient`. -/
def stubApi : AmadeusAPI := ⟨some stubClient⟩

lemma getLast?_concat_msg (ms : List Message) (m : Message) :
    (ms ++ [m]).getLast? = some m := by
  simp [List.getLast?_concat]

lemma route_after_agent_concat (ms : List Message) (t : String)
    (tcs : List ToolCall) :
    route_after_agent (ms ++ [Message.assistant t tcs]) =
      if tcs.isEmpty then Node.terminal else Node.action := by
  unfold route_after_agent should_continue
  rw [getLast?_concat_msg]
  cases tcs <;> simp

lemma tool_node_concat (exec : ToolCall → String) (ms : List Message)
    (t : String) (tcs : List ToolCall) :
    tool_node exec (ms ++ [Message.assistant t tcs]) =
      tcs.map (fun tc => Message.toolResult tc.id (exec tc)) := by
  unfold tool_node
  rw [getLast?_concat_msg]

/-- C1: at a concrete run in which the worker's latest AssistantMessage
has zero tool calls, the conditional edge routes to `END` (`terminal`),
not to the `summarize` node: the run terminates with the worker's own
message as the final one and the supervisor never contributes — contrary
to `should_continue`'s docstring and the spec's transition rule. -/
theorem worker_no_toolcalls_goes_to_END :
    route_after_agent [Message.user "hi",
        Message.assistant "Hello! How can I help?" []] = Node.terminal ∧
    run_turn chatOracles [Message.user "hi"] =
      [Message.user "hi", Message.assistant "Hello! How can I help?" []] :=
  ⟨rfl, rfl⟩

/-- C2: when the worker's reply carries one or more tool calls, the agent
node's conditional edge routes to the `action` node, and the ToolNode
appends exactly one ToolResultMessage per ToolCall, in call order. -/
theorem toolcalls_route_to_action_one_result_each (o : Oracles)
    (ms : List Message) (h : (o.worker ms).2 ≠ []) :
    (step o (Node.agent, ms)).1 = Node.action ∧
    tool_node o.tool_exec (step o (Node.agent, ms)).2 =
      (o.worker ms).2.map (fun tc => Message.toolResult tc.id (o.tool_exec tc)) := by
  simp only [step, call_model]
  refine ⟨?_, tool_node_concat _ _ _ _⟩
  rw [route_after_agent_concat]
  simp [List.isEmpty_iff, h]

/-- Witness for C2 at a concrete worker reply with one tool call. -/
theorem toolcalls_route_to_action_one_result_each_witness :
    (toolingOracles.worker [Message.user "date?"]).2 ≠ [] ∧
    ((step toolingOracles (Node.agent, [Message.user "date?"])).1 = Node.action ∧
      tool_node toolingOracles.tool_exec
          (step toolingOracles (Node.agent, [Message.user "date?"])).2 =
        (toolingOracles.worker [Message.user "date?"]).2.map
          (fun tc => Message.toolResult tc.id (toolingOracles.tool_exec tc))) :=
  ⟨by decide,
    toolcalls_route_to_action_one_result_each toolingOracles
      [Message.user "date?"] (by decide)⟩

/-- C8: every terminated orchestration run ends with an assistant message
carrying no pending tool calls: either the run stopped right after the
worker (whose message then had an empty `tool_calls` list), or it went
through the supervisor, whose appended message never carries tool calls. -/
theorem run_turn_ends_with_plain_assistant (o : Oracles) (ms : List Message) :
    ∃ t, (run_turn o ms).getLast? = some (Message.assistant t []) := by
  unfold run_turn runAux
  simp only [step, call_model]
  rcases htc : (o.worker ms).2 with _ | ⟨tc, tcs⟩
  · refine ⟨(o.worker ms).1, ?_⟩
    rw [route_after_agent_concat]
    simp [runAux, getLast?_concat_msg]
  · rw [route_after_agent_concat]
    simp only [List.isEmpty_cons, Bool.false_eq_true, if_false, reduceCtorEq,
      if_neg, runAux, step, call_summarizer]
    exact ⟨_, getLast?_concat_msg _ _⟩

/-- C9: with an uninitialized client every gateway search operation
returns the fixed "Amadeus client is not initialized" error string and
records no provider call. -/
theorem uninitialized_client_fixed_error
    (origin destination departure_date : String) (a ch : Int) (ns : Bool)
    (mx : Int) (city : String) (lat lon r : Int) :
    find_one_way_flights ⟨none⟩ origin destination departure_date a ch ns mx =
      (Except.ok (ToolResult.err notInitializedMsg), []) ∧
    find_hotels_in_city ⟨none⟩ city =
      (Except.ok (ToolResult.err notInitializedMsg), []) ∧
    find_hotels_by_area ⟨none⟩ lat lon r =
      (Except.ok (ToolResult.err notInitializedMsg), []) :=
  ⟨rfl, rfl, rfl⟩

/-- C4: no gateway search operation lets an exception escape — each
always returns `Except.ok` of a tool result; on provider success the
provider's list is returned unmodified, on a provider exception the
result is an error string. -/
theorem gateway_never_raises (api : AmadeusAPI)
    (origin destination departure_date : String) (a ch : Int) (ns : Bool)
    (mx : Int) (city : String) (lat lon r : Int) :
    (∃ v, (find_one_way_flights api origin destination departure_date
        a ch ns mx).1 = Except.ok v) ∧
    (∃ v, (find_hotels_in_city api city).1 = Except.ok v) ∧
    (∃ v, (find_hotels_by_area api lat lon r).1 = Except.ok v) ∧
    (∀ c data, api.client = some c →
      c.flight_offers_search origin destination departure_date a ch
          (if ns then "true" else "false") mx = Except.ok data →
      (find_one_way_flights api origin destination departure_date
          a ch ns mx).1 = Except.ok (ToolResult.ok data)) ∧
    (∀ c data, api.client = some c → c.hotels_by_city city = Except.ok data →
      (find_hotels_in_city api city).1 = Except.ok (ToolResult.ok data)) ∧
    (∀ c data, api.client = some c →
      c.hotels_by_geocode lon lat r = Except.ok data →
      (find_hotels_by_area api lat lon r).1 = Except.ok (ToolResult.ok data)) ∧
    (∀ c e, api.client = some c →
      c.flight_offers_search origin destination departure_date a ch
          (if ns then "true" else "false") mx = Except.error e →
      ∃ s, (find_one_way_flights api origin destination departure_date
          a ch ns mx).1 = Except.ok (ToolResult.err s)) ∧
    (∀ c e, api.client = some c → c.hotels_by_city city = Except.error e →
      ∃ s, (find_hotels_in_city api city).1 = Except.ok (ToolResult.err s)) ∧
    (∀ c e, api.client = some c →
      c.hotels_by_geocode lon lat r = Except.error e →
      ∃ s, (find_hotels_by_area api lat lon r).1 =
        Except.ok (ToolResult.err s)) := by
  refine ⟨?_, ?_, ?_, ?_, ?_, ?_, ?_, ?_, ?_⟩
  · rcases hc : api.client with _ | c
    · exact ⟨ToolResult.err notInitializedMsg,
        by simp [find_one_way_flights, hc]⟩
    · rcases hr : c.flight_offers_search origin destination departure_date
          a ch (if ns then "true" else "false") mx with e | data
      · rcases e with d | _
        · exact ⟨ToolResult.err
            ("An error occurred while searching for flights: " ++ d),
            by simp [find_one_way_flights, hc, hr]⟩
        · exact ⟨ToolResult.err
            "An unexpected error occurred during the flight search.",
            by simp [find_one_way_flights, hc, hr]⟩
      · exact ⟨ToolResult.ok data, by simp [find_one_way_flights, hc, hr]⟩
  · rcases hc : api.client with _ | c
    · exact ⟨ToolResult.err notInitializedMsg,
        by simp [find_hotels_in_city, hc]⟩
    · rcases hr : c.hotels_by_city city with e | data
      · rcases e with d | _
        · exact ⟨ToolResult.err
            ("An error occurred while searching for hotels: " ++ d),
            by simp [find_hotels_in_city, hc, hr]⟩
        · exact ⟨ToolResult.err
            "An unexpected error occurred during the hotel search.",
            by simp [find_hotels_in_city, hc, hr]⟩
      · exact ⟨ToolResult.ok data, by simp [find_hotels_in_city, hc, hr]⟩
  · rcases hc : api.client with _ | c
    · exact ⟨ToolResult.err notInitializedMsg,
        by simp [find_hotels_by_area, hc]⟩
    · rcases hr : c.hotels_by_geocode lon lat r with e | data
      · rcases e with d | _
        · exact ⟨ToolResult.err
            ("An error occurred while searching for hotels by area: " ++ d),
            by simp [find_hotels_by_area, hc, hr]⟩
        · exact ⟨ToolResult.err
            "An unexpected error occurred during the hotel area search.",
            by simp [find_hotels_by_area, hc, hr]⟩
      · exact ⟨ToolResult.ok data, by simp [find_hotels_by_area, hc, hr]⟩
  · intro c data hc hr
    simp [find_one_way_flights, hc, hr]
  · intro c data hc hr
    simp [find_hotels_in_city, hc, hr]
  · intro c data hc hr
    simp [find_hotels_by_area, hc, hr]
  · intro c e hc hr
    rcases e with d | _
    · exact ⟨"An error occurred while searching for flights: " ++ d,
        by simp [find_one_way_flights, hc, hr]⟩
    · exact ⟨"An unexpected error occurred during the flight search.",
        by simp [find_one_way_flights, hc, hr]⟩
  · intro c e hc hr
    rcases e with d | _
    · exact ⟨"An error occurred while searching for hotels: " ++ d,
        by simp [find_hotels_in_city, hc, hr]⟩
    · exact ⟨"An unexpected error occurred during the hotel search.",
        by simp [find_hotels_in_city, hc, hr]⟩
  · intro c e hc hr
    rcases e with d | _
    · exact ⟨"An error occurred while searching for hotels by area: " ++ d,
        by simp [find_hotels_by_area, hc, hr]⟩
    · exact ⟨"An unexpected error occurred during the hotel area search.",
        by simp [find_hotels_by_area, hc, hr]⟩

/-- Witness for C4 against the stub provider: a successful flight search
passes the provider's offers through unmodified, and a provider
`ResponseError` on the geocode search comes back as an error-string
result, not an exception. -/
theorem gateway_never_raises_witness :
    (find_one_way_flights stubApi "BLR" "COK" "2025-11-01" 1 0 true 10).1 =
      Except.ok (ToolResult.ok ["offer1", "offer2"]) ∧
    (∃ s, (find_hotels_by_area stubApi 48 2 2).1 =
      Except.ok (ToolResult.err s)) := by
  have h := gateway_never_raises stubApi "BLR" "COK" "2025-11-01" 1 0 true 10
    "PAR" 48 2 2
  exact ⟨h.2.2.2.1 stubClient ["offer1", "offer2"] rfl rfl,
    h.2.2.2.2.2.2.2.2 stubClient (PyExn.responseError "boom") rfl rfl⟩

/-- C3: explicit coordinates take precedence over `place_name`: with both
given, the geocoder trace is empty (it is never invoked) and the call is
delegated to the hotel-area gateway operation at exactly those
coordinates. -/
theorem coordinates_take_precedence (api : AmadeusAPI)
    (geocode : String → Option (Int × Int)) (place_name : Option String)
    (lat lon radius : Int) :
    search_hotels_by_area api geocode place_name (some lat) (some lon)
        radius =
      ((find_hotels_by_area api lat lon radius).1, [],
        (find_hotels_by_area api lat lon radius).2) := by
  simp [search_hotels_by_area]

/-- C6: a (truthy) place name with both coordinates absent and a geocoder
miss yields an error string that embeds the place name; the geocoder
trace records exactly the one lookup and the provider trace is empty (no
hotel-search call). -/
theorem geocode_miss_names_place (api : AmadeusAPI)
    (geocode : String → Option (Int × Int)) (s : String) (radius : Int)
    (hs : s.isEmpty = false) (hg : geocode s = none) :
    search_hotels_by_area api geocode (some s) none none radius =
      (Except.ok (ToolResult.err
        ("Error: Could not find the coordinates for the location '" ++ s ++
          "'. Please try a different or more specific landmark.")),
        [s], []) := by
  simp [search_hotels_by_area, truthyStr, get_geocoordinates, hs, hg]

/-- Witness for C6 at the spec's scenario input. -/
theorem geocode_miss_names_place_witness :
    search_hotels_by_area ⟨none⟩ (fun _ => none)
        (some "Eiffel Tower, Paris") none none 2 =
      (Except.ok (ToolResult.err
        ("Error: Could not find the coordinates for the location '" ++
          "Eiffel Tower, Paris" ++
          "'. Please try a different or more specific landmark.")),
        ["Eiffel Tower, Paris"], []) :=
  geocode_miss_names_place ⟨none⟩ (fun _ => none) "Eiffel Tower, Paris" 2
    rfl rfl

/-- C7: whenever the optional geocoding step leaves the coordinate pair
incomplete — the geocoding branch was not taken, and latitude or
longitude is missing — the call returns the fixed "no location" error and
makes no geocoder or provider call. -/
theorem incomplete_location_refused (api : AmadeusAPI)
    (geocode : String → Option (Int × Int)) (place_name : Option String)
    (latitude longitude : Option Int) (radius : Int)
    (hskip : ¬(truthyStr place_name = true ∧ longitude = none ∧
      latitude = none))
    (hmiss : latitude = none ∨ longitude = none) :
    search_hotels_by_area api geocode place_name latitude longitude radius =
      (Except.ok (ToolResult.err noLocationMsg), [], []) := by
  rcases hmiss with h | h <;> subst h
  · rcases longitude with _ | b
    · cases h0 : truthyStr place_name
      · simp [search_hotels_by_area, h0]
      · exact absurd ⟨h0, rfl, rfl⟩ hskip
    · simp [search_hotels_by_area]
  · rcases latitude with _ | a
    · cases h0 : truthyStr place_name
      · simp [search_hotels_by_area, h0]
      · exact absurd ⟨h0, rfl, rfl⟩ hskip
    · simp [search_hotels_by_area]

/-- Witness for C7: no place name, latitude present, longitude absent. -/
theorem incomplete_location_refused_witness :
    search_hotels_by_area ⟨none⟩ (fun _ => none) none (some 1) none 2 =
      (Except.ok (ToolResult.err noLocationMsg), [], []) :=
  incomplete_location_refused ⟨none⟩ (fun _ => none) none (some 1) none 2
    (by simp [truthyStr]) (Or.inr rfl)

/-- C10: a place name together with exactly one coordinate: the geocoding
branch is skipped (it requires both coordinates absent), and the call
fails with the "no location" error, invoking neither the geocoder nor the
provider. -/
theorem one_coordinate_skips_geocoder (api : AmadeusAPI)
    (geocode : String → Option (Int × Int)) (s : String) (c radius : Int) :
    search_hotels_by_area api geocode (some s) (some c) none radius =
      (Except.ok (ToolResult.err noLocationMsg), [], []) ∧
    search_hotels_by_area api geocode (some s) none (some c) radius =
      (Except.ok (ToolResult.err noLocationMsg), [], []) := by
  constructor <;> simp [search_hotels_by_area]

/-- C5: tool arguments violating the flight-search schema are rejected
with a `ValidationError` naming the offending field — in particular a
missing `destination` is reported by name — with an empty provider trace
(the implementation never runs); valid arguments reach the implementation
with the schema's defaults filled in for omitted optional fields. -/
theorem invoke_validates_before_provider (api : AmadeusAPI)
    (args : FlightSearchArgs) :
    (∀ f, validateFlightSearchInput args = Validated.validationError f →
      invoke_search_flights api args = (Validated.validationError f, [])) ∧
    (∀ o, args.origin = some o → args.destination = none →
      invoke_search_flights api args =
        (Validated.validationError "destination", [])) ∧
    (∀ inp, validateFlightSearchInput args = Validated.ok inp →
      invoke_search_flights api args =
        (Validated.ok (search_flights api inp).1,
          (search_flights api inp).2) ∧
      (args.num_adults = none → inp.num_adults = 1) ∧
      (args.num_children = none → inp.num_children = 0) ∧
      (args.non_stop = none → inp.non_stop = true) ∧
      (args.maximum_results = none → inp.maximum_results = 10)) := by
  refine ⟨?_, ?_, ?_⟩
  · intro f h
    simp [invoke_search_flights, h]
  · intro o ho hd
    simp [invoke_search_flights, validateFlightSearchInput, ho, hd]
  · intro inp h
    rcases ho : args.origin with _ | o
    · simp [validateFlightSearchInput, ho] at h
    rcases hd : args.destination with _ | d
    · simp [validateFlightSearchInput, ho, hd] at h
    rcases hdd : args.departure_date with _ | dd
    · simp [validateFlightSearchInput, ho, hd, hdd] at h
    have hinp : inp = ⟨o, d, dd, args.num_adults.getD 1,
        args.num_children.getD 0, args.non_stop.getD true,
        args.maximum_results.getD 10⟩ := by
      simp [validateFlightSearchInput, ho, hd, hdd] at h
      exact h.symm
    subst hinp
    refine ⟨by simp [invoke_search_flights, h], ?_, ?_, ?_, ?_⟩
    · intro hna
      simp [hna]
    · intro hnc
      simp [hnc]
    · intro hns
      simp [hns]
    · intro hmr
      simp [hmr]

/-- Witness for C5: a call missing `destination` is rejected by name with
no provider call; a minimal valid call gets all four defaults. -/
theorem invoke_validates_before_provider_witness :
    invoke_search_flights stubApi
        ⟨some "BLR", none, some "2025-11-01", none, none, none, none⟩ =
      (Validated.validationError "destination", []) ∧
    (invoke_search_flights stubApi
        ⟨some "BLR", some "COK", some "2025-11-01", none, none, none, none⟩ =
      (Validated.ok (search_flights stubApi
          ⟨"BLR", "COK", "2025-11-01", 1, 0, true, 10⟩).1,
        (search_flights stubApi
          ⟨"BLR", "COK", "2025-11-01", 1, 0, true, 10⟩).2)) := by
  constructor
  · exact (invoke_validates_before_provider stubApi
      ⟨some "BLR", none, some "2025-11-01", none, none, none, none⟩).2.1
      "BLR" rfl rfl
  · exact ((invoke_validates_before_provider stubApi
      ⟨some "BLR", some "COK", some "2025-11-01", none, none, none,
        none⟩).2.2 ⟨"BLR", "COK", "2025-11-01", 1, 0, true, 10⟩ rfl).1

end Tessa
